import Mathlib

/- Shallow embedding of the Telegram movie bot (bot.py): per-user conversation
state router, menu-button handling, favorites storage, and the keyboard
renderers.  String primitives model the Python string operations used by the
source (lower, strip, split, replace, substring containment, capitalize) over
`List Char`, restricted to ASCII case mapping. -/

namespace MovieBot

/-- ASCII model of Python str.lower on one character. -/
def pyLowerChar (c : Char) : Char :=
  if 65 ≤ c.toNat ∧ c.toNat ≤ 90 then Char.ofNat (c.toNat + 32) else c

/-- ASCII model of Python str.upper on one character. -/
def pyUpperChar (c : Char) : Char :=
  if 97 ≤ c.toNat ∧ c.toNat ≤ 122 then Char.ofNat (c.toNat - 32) else c

/-- Model of Python str.lower. -/
def pyLower (s : String) : String := String.mk (s.data.map pyLowerChar)

/-- Python str.strip with no argument: drop leading and trailing whitespace. -/
def stripChars (xs : List Char) : List Char :=
  ((xs.dropWhile Char.isWhitespace).reverse.dropWhile Char.isWhitespace).reverse

/-- Model of Python str.strip. -/
def pyStrip (s : String) : String := String.mk (stripChars s.data)

/-- Worker for Python str.split with no argument: split on whitespace runs,
producing no empty fragments; acc holds the current fragment reversed. -/
def splitWsAux : List Char → List Char → List (List Char)
  | [], acc => if acc.isEmpty then [] else [acc.reverse]
  | c :: rest, acc =>
    if c.isWhitespace then
      if acc.isEmpty then splitWsAux rest [] else acc.reverse :: splitWsAux rest []
    else splitWsAux rest (c :: acc)

/-- Model of Python str.split with no argument. -/
def pySplit (s : String) : List String := (splitWsAux s.data []).map String.mk

/-- Substring containment over character lists, as in the Python in operator. -/
def containsSub : List Char → List Char → Bool
  | [], pat => pat.isEmpty
  | x :: rest, pat => pat.isPrefixOf (x :: rest) || containsSub rest pat

/-- Model of the Python expression sub in s. -/
def pyContains (s sub : String) : Bool := containsSub s.data sub.data

/-- Model of Python str.replace for a nonempty pattern (every call site of the
source passes a fixed nonempty phrase): replace each non-overlapping occurrence
of pat left to right by rep.  The Nat argument is recursion fuel; each step
consumes at least one character, so fuel equal to the input length makes the
fuel-exhausted arm unreachable. -/
def replaceCharsFuel (pat rep : List Char) : Nat → List Char → List Char
  | 0, xs => xs
  | _ + 1, [] => []
  | fuel + 1, c :: rest =>
    if ¬pat.isEmpty ∧ pat.isPrefixOf (c :: rest)
    then rep ++ replaceCharsFuel pat rep fuel (rest.drop (pat.length - 1))
    else c :: replaceCharsFuel pat rep fuel rest

/-- Model of Python s.replace(pat, rep). -/
def pyReplace (s pat rep : String) : String :=
  String.mk (replaceCharsFuel pat.data rep.data s.data.length s.data)

/-- Model of Python str.capitalize: first character uppercased, rest lowered. -/
def pyCapitalize (s : String) : String :=
  match s.data with
  | [] => ""
  | c :: rest => String.mk (pyUpperChar c :: rest.map pyLowerChar)

/-- An inline keyboard button: display label plus callback data. -/
structure Button where
  text : String
  callback_data : String
deriving DecidableEq, Repr

/-- Reply markup attached to an outgoing message: an inline keyboard
(InlineKeyboardMarkup), a location-request reply keyboard
(ReplyKeyboardMarkup with a location button), or keyboard removal. -/
inductive Markup where
  | inline (rows : List (List Button))
  | locationRequest
  | removeKb
deriving DecidableEq, Repr

/-- One outgoing message: its text and optional reply markup. -/
structure Reply where
  msg : String
  markup : Option Markup
deriving DecidableEq, Repr

/-- A TMDb movie summary as used by the keyboard renderer: id, title and the
optional release_date field. -/
structure MovieSummary where
  id : Nat
  title : String
  release_date : Option String
deriving DecidableEq, Repr

/-- The slice of a TMDb movie-detail record used by save_favorite_movie. -/
structure MovieDetail where
  title : String
deriving DecidableEq, Repr

/-- The favorites store content: a JSON object keyed by string user id with an
ordered array of title strings per user, modelled as an ordered association
list. -/
abbrev Favorites := List (String × List String)

/-- Dictionary key lookup on the favorites object. -/
def favLookup : Favorites → String → Option (List String)
  | [], _ => none
  | (k, v) :: rest, uid => if k = uid then some v else favLookup rest uid

/-- Dictionary assignment favorites[uid] = l: update in place when the key
exists, otherwise append the new key at the end. -/
def favSet : Favorites → String → List String → Favorites
  | [], uid, l => [(uid, l)]
  | (k, v) :: rest, uid, l =>
    if k = uid then (k, l) :: rest else (k, v) :: favSet rest uid l

/-- The remote catalog surface consumed by the modelled handlers.  Any TMDb
failure is already represented as an empty result list, as in tmdb_request. -/
structure Catalog where
  searchMovies : String → List MovieSummary
  trending : List MovieSummary

/-- The per-user conversation state: context.user_data either has no state key
(idle) or holds one of the string markers search, actor, favorite. -/
inductive SessionState where
  | idle
  | search
  | actor
  | favorite
deriving DecidableEq, Repr

/-- How many pending expectations a session state holds. -/
def pendingCount : SessionState → Nat
  | .idle => 0
  | _ => 1

/-- The handler invoked by the router, with the context.args it is given. -/
inductive Invocation where
  | searchI (args : List String)
  | actorI (args : List String)
  | favoriteI (args : List String)
  | genreI (args : List String)
  | trendingI
  | favoritesViewI
  | cinemaI
  | helpI
  | startI
deriving DecidableEq, Repr

/-- The context.args carried by an invocation. -/
def invArgs : Invocation → List String
  | .searchI a => a
  | .actorI a => a
  | .favoriteI a => a
  | .genreI a => a
  | _ => []

/-- What the text router does with a message: dispatch to a handler with
arguments, or send a reply directly. -/
inductive RouteAction where
  | invoke (inv : Invocation)
  | send (r : Reply)
deriving DecidableEq, Repr

/-- create_error_keyboard: a single return-to-menu button. -/
def create_error_keyboard : Markup :=
  Markup.inline [[⟨"🎛️ Menu", "menu_menu"⟩]]

/-- The welcome text built inside create_main_menu. -/
def start_message : String :=
  "\n    🎥 Selamat datang di Movie Search Bot! 🍿\n    Siap menjelajahi dunia film? Dari blockbuster terbaru hingga klasik favorit, kami punya semua yang kamu cari!\n    Gunakan tombol di bawah untuk mulai petualanganmu:\n    - Cari film, aktor, atau genre favoritmu\n    - Temukan film trending atau bioskop terdekat\n    - Simpan film kesukaanmu di daftar favorit\n    Klik **🎛️ Menu** untuk melihat semua fitur!\n    "

/-- The inline keyboard built inside create_main_menu. -/
def main_menu_keyboard : Markup :=
  Markup.inline
    [[⟨"🔍 Cari Film", "menu_search"⟩, ⟨"🎭 Cari Aktor", "menu_actor"⟩],
     [⟨"🎬 Film Trending", "menu_trending"⟩, ⟨"🏷️ Genre Film", "menu_genres"⟩],
     [⟨"⭐ Tambah Favorit", "menu_favorite"⟩, ⟨"📜 List Favorit", "menu_favorites"⟩],
     [⟨"🎫 Cari Bioskop", "menu_cinema"⟩, ⟨"🎛️ Menu", "menu_menu"⟩],
     [⟨"❓ Bantuan", "menu_help"⟩]]

/-- create_main_menu: the welcome text together with the main menu keyboard. -/
def create_main_menu : String × Markup := (start_message, main_menu_keyboard)

/-- The help text sent by help_command. -/
def help_message : String :=
  "\n        🎬 Panduan Menu Movie Search Bot 🍿\n        Berikut adalah penjelasan tombol menu kami:\n        - 🔍 **Cari Film**: Cari film berdasarkan judul.\n        - 🎭 **Cari Aktor**: Temukan film berdasarkan nama aktor/aktris.\n        - 🎬 **Film Trending**: Lihat film yang sedang populer saat ini.\n        - 🏷️ **Genre Film**: Jelajahi film berdasarkan genre (action, comedy, dll.).\n        - ⭐ **Tambah Favorit**: Tambahkan film ke daftar favoritmu.\n        - 📜 **List Favorit**: Lihat daftar film favoritmu.\n        - 🎫 **Cari Bioskop**: Temukan bioskop terdekat dengan lokasimu.\n        - 🎛️ **Menu**: Kembali ke menu utama.\n        - ❓ **Bantuan**: Tampilkan panduan ini.\n        Klik **🎛️ Menu** untuk kembali menjelajah!\n        "

/-- The reply sent by help_command on its success path. -/
def helpReply : Reply :=
  ⟨help_message, some (Markup.inline [[⟨"🎛️ Menu", "menu_menu"⟩]])⟩

/-- The release-year fragment of a movie button label:
movie.get("release_date", "Unknown")[:4] when release_date is truthy,
otherwise "Unknown". -/
def releaseYear (movie : MovieSummary) : String :=
  match movie.release_date with
  | some d => if d ≠ "" then d.take 4 else "Unknown"
  | none => "Unknown"

/-- One selectable movie button with the given callback category cb. -/
def movieButton (cb : String) (movie : MovieSummary) : Button :=
  ⟨movie.title ++ " (" ++ releaseYear movie ++ ")", cb ++ "_" ++ toString movie.id⟩

/-- The rows built by create_movie_keyboard: one row per movie, limited to the
first 5 results, then a final return-to-menu row. -/
def movieKeyboardRows (movies : List MovieSummary) (cb : String) : List (List Button) :=
  ((movies.take 5).map (fun movie => [movieButton cb movie])) ++ [[⟨"🎛️ Menu", "menu_menu"⟩]]

/-- create_movie_keyboard wrapped as InlineKeyboardMarkup. -/
def create_movie_keyboard (movies : List MovieSummary) (cb : String) : Markup :=
  Markup.inline (movieKeyboardRows movies cb)

/-- The observable states of the favorites file when load_favorites runs. -/
inductive FavFile where
  | missing
  | unreadable
  | invalidJson
  | valid (favs : Favorites)
deriving DecidableEq, Repr

/-- The Python exceptions that can escape load_favorites. -/
inductive LoadError where
  | osError
  | jsonDecodeError
deriving DecidableEq, Repr

/-- load_favorites: open the favorites file and json.load it; the try block
catches FileNotFoundError only, returning the empty object, so a file that
exists but cannot be opened (OSError) or does not parse (JSONDecodeError)
raises. -/
def load_favorites : FavFile → Except LoadError Favorites
  | .missing => .ok []
  | .unreadable => .error .osError
  | .invalidJson => .error .jsonDecodeError
  | .valid favs => .ok favs

/-- search_movie: join context.args into the query, prompt when empty, report
when the catalog result is empty, otherwise show the movie keyboard.  The
first component of the result is the favorites-file content afterwards: the
handler never writes it. -/
def search_movie (cat : Catalog) (store : Favorites) (args : List String) :
    Favorites × Reply :=
  let query := String.intercalate " " args
  if query = "" then
    (store, ⟨"⚠️ Please enter a movie title after /search.", some create_error_keyboard⟩)
  else
    let movies := cat.searchMovies query
    if movies.isEmpty then
      (store, ⟨"❌ No movies found for \x27" ++ query ++ "\x27.", some create_error_keyboard⟩)
    else
      (store, ⟨"🎬 Movies found:", some (create_movie_keyboard movies "detail")⟩)

/-- save_favorite_movie from the point where get_movie_details has resolved the
callback movie id (movie = none models an empty detail record).  Mirrors the
source: load the favorites object, insert an empty list for a new user id,
reject a title already present under case-insensitive comparison without
calling save_favorites, otherwise append and save.  The first component is
the favorites-file content afterwards. -/
def save_favorite_movie (store : Favorites) (user_id : String)
    (movie : Option MovieDetail) : Favorites × Reply :=
  match movie with
  | none => (store, ⟨"❌ No movie details found.", some create_error_keyboard⟩)
  | some m =>
    let movie_title := m.title
    let favorites := store
    let favorites :=
      if favLookup favorites user_id = none then favSet favorites user_id [] else favorites
    let userList := (favLookup favorites user_id).getD []
    if pyLower movie_title ∈ userList.map pyLower then
      (store,
       ⟨"❌ \x27" ++ movie_title ++ "\x27 sudah ada di daftar favorit Anda.",
        some create_error_keyboard⟩)
    else
      (favSet favorites user_id (userList ++ [movie_title]),
       ⟨"✅ \x27" ++ movie_title ++ "\x27 telah ditambahkan ke daftar favorit Anda.",
        some create_error_keyboard⟩)

/-- view_favorites (the /favorites and free-text path): a user id that is
absent or maps to an empty list gets the no-favorites message, otherwise the
titles are listed one per line.  The handler never writes the store. -/
def view_favorites (store : Favorites) (user_id : String) : Favorites × Reply :=
  let favorites := store
  match favLookup favorites user_id with
  | none =>
    (store, ⟨"❌ Anda belum memiliki film favorit.", some create_error_keyboard⟩)
  | some l =>
    if l.isEmpty then
      (store, ⟨"❌ Anda belum memiliki film favorit.", some create_error_keyboard⟩)
    else
      (store,
       ⟨"⭐ Daftar film favorit Anda:\n" ++ String.join (l.map (fun movie => "- " ++ movie ++ "\n")),
        some create_error_keyboard⟩)

/-- The genre submenu rows: two genre buttons per row, as built by the
range(0, len, 2) loop of the genres branch. -/
def genreRows : List String → List (List Button)
  | [] => []
  | [g] => [[⟨pyCapitalize g, "genre_" ++ g⟩]]
  | g1 :: g2 :: rest =>
    [⟨pyCapitalize g1, "genre_" ++ g1⟩, ⟨pyCapitalize g2, "genre_" ++ g2⟩] :: genreRows rest

/-- handle_menu_button: dispatch on the action token following menu_.  The
result is the session state, the favorites-file content afterwards (the
handler never writes it) and the reply.  genres is the GENRES table, an
ordered mapping of lowercased genre name to id. -/
def handle_menu_button (state : SessionState) (genres : List (String × Nat))
    (cat : Catalog) (store : Favorites) (user_id action : String) :
    SessionState × Favorites × Reply :=
  if action = "search" then
    (.search, store, ⟨"🔍 Ketik judul film yang ingin dicari:", none⟩)
  else if action = "actor" then
    (.actor, store, ⟨"🎭 Ketik nama aktor/aktris:", none⟩)
  else if action = "favorite" then
    (.favorite, store, ⟨"⭐ Ketik judul film yang ingin ditambahkan ke favorit:", none⟩)
  else if action = "trending" then
    if cat.trending.isEmpty then
      (state, store, ⟨"❌ Tidak ada film tren saat ini.", some create_error_keyboard⟩)
    else
      (state, store, ⟨"🎬 Film yang sedang tren:", some (create_movie_keyboard cat.trending "detail")⟩)
  else if action = "genres" then
    let genres_list := (genres.map Prod.fst).take 10
    let keyboard := genreRows genres_list ++ [[⟨"⬅️ Kembali", "menu_main"⟩]]
    (state, store, ⟨"🏷️ Pilih genre:", some (Markup.inline keyboard)⟩)
  else if action = "favorites" then
    match favLookup store user_id with
    | none =>
      (state, store, ⟨"❌ Anda belum memiliki film favorit.", some create_error_keyboard⟩)
    | some l =>
      if l.isEmpty then
        (state, store, ⟨"❌ Anda belum memiliki film favorit.", some create_error_keyboard⟩)
      else
        (state, store,
         ⟨"⭐ Daftar favorit Anda:\n" ++ String.intercalate "\n" (l.map (fun movie => "- " ++ movie)),
          some create_error_keyboard⟩)
  else if action = "cinema" then
    (state, store, ⟨"Silakan kirim lokasi Anda:", some Markup.locationRequest⟩)
  else if action = "menu" then
    (state, store, ⟨create_main_menu.1, some create_main_menu.2⟩)
  else if action = "main" then
    (state, store, ⟨"🎬 Pilih menu:", some create_main_menu.2⟩)
  else if action = "help" then
    (state, store, helpReply)
  else
    (state, store, ⟨"❌ Perintah tidak dikenali.", some create_error_keyboard⟩)

/-- The body of text_message_handler once text = update.message.text.lower()
has been taken: first pop and serve a pending state, otherwise run the
free-text intent chain on text. -/
def routeText (state : SessionState) (genres : List (String × Nat)) (text : String) :
    SessionState × RouteAction :=
  match state with
  | .search =>
    let query := pyStrip text
    if query ≠ "" then (.idle, .invoke (.searchI (pySplit query)))
    else (.idle, .send ⟨"❌ Judul film tidak boleh kosong.", some create_error_keyboard⟩)
  | .actor =>
    let query := pyStrip text
    if query ≠ "" then (.idle, .invoke (.actorI (pySplit query)))
    else (.idle, .send ⟨"❌ Nama aktor tidak boleh kosong.", some create_error_keyboard⟩)
  | .favorite =>
    let query := pyStrip text
    if query ≠ "" then (.idle, .invoke (.favoriteI (pySplit query)))
    else (.idle, .send ⟨"❌ Judul film tidak boleh kosong.", some create_error_keyboard⟩)
  | .idle =>
    if pyContains text "cari film" || pyContains text "search movie" then
      let query := pyStrip (pyReplace (pyReplace text "cari film" "") "search movie" "")
      if query ≠ "" then (.idle, .invoke (.searchI (pySplit query)))
      else
        (.idle, .send ⟨"🔍 Silakan masukkan judul film yang ingin dicari.\nContoh: cari film Avengers",
          some create_error_keyboard⟩)
    else if pyContains text "cari aktor" || pyContains text "search actor" then
      let query := pyStrip (pyReplace (pyReplace text "cari aktor" "") "search actor" "")
      if query ≠ "" then (.idle, .invoke (.actorI (pySplit query)))
      else
        (.idle, .send ⟨"🎭 Ketik nama aktor atau aktris.\nContoh: cari aktor Tom Cruise",
          some create_error_keyboard⟩)
    else if pyContains text "trending" || pyContains text "film populer" then
      (.idle, .invoke .trendingI)
    else if pyContains text "genre" then
      let genre_name := pyStrip (pyReplace text "genre" "")
      if genre_name ≠ "" then (.idle, .invoke (.genreI (pySplit genre_name)))
      else
        let genres_list := (genres.map Prod.fst).take 10
        let genres_text := String.intercalate ", " (genres_list.map pyCapitalize)
        (.idle, .send ⟨"🏷️ Silakan tentukan genre film:\nContoh: genre action\nGenre yang tersedia: " ++ genres_text,
          some create_error_keyboard⟩)
    else if pyContains text "favorit" || pyContains text "favorites" then
      if pyContains text "tambah" || pyContains text "add" then
        let query := pyStrip (pyReplace (pyReplace text "tambah favorit" "") "add to favorites" "")
        if query ≠ "" then (.idle, .invoke (.favoriteI (pySplit query)))
        else
          (.idle, .send ⟨"⭐ Ketik judul film untuk favorit.\nContoh: tambah favorit Inception",
            some create_error_keyboard⟩)
      else (.idle, .invoke .favoritesViewI)
    else if pyContains text "bioskop" || pyContains text "cinema" then
      (.idle, .invoke .cinemaI)
    else if pyContains text "bantuan" || pyContains text "help" then
      (.idle, .invoke .helpI)
    else if pyContains text "menu" || pyContains text "start" then
      (.idle, .invoke .startI)
    else
      (.idle, .send ⟨"Saya tidak mengerti permintaan Anda. Silakan pilih dari menu di bawah:",
        some create_main_menu.2⟩)

/-- text_message_handler: lower the raw message text, then route it. -/
def route (state : SessionState) (genres : List (String × Nat)) (raw : String) :
    SessionState × RouteAction :=
  routeText state genres (pyLower raw)

/-- Number of stored titles of a user that equal a given title up to case. -/
def ciCount (l : List String) (t : String) : Nat :=
  (l.filter (fun x => pyLower x = pyLower t)).length

/- Supporting lemmas. -/

theorem toNat_ofNat_valid {n : Nat} (h : n.isValidChar) : (Char.ofNat n).toNat = n := by
  simp [Char.ofNat, h, Char.ofNatAux, Char.toNat, UInt32.toNat, UInt32.ofNat']

theorem pyLowerChar_idem (c : Char) : pyLowerChar (pyLowerChar c) = pyLowerChar c := by
  unfold pyLowerChar
  by_cases h : 65 ≤ c.toNat ∧ c.toNat ≤ 90
  · have hv : (c.toNat + 32).isValidChar := by
      left
      omega
    rw [if_pos h, toNat_ofNat_valid hv, if_neg (by omega)]
  · rw [if_neg h, if_neg h]

theorem pyLower_idem (s : String) : pyLower (pyLower s) = pyLower s := by
  simp only [pyLower, List.map_map]
  congr 1
  exact List.map_congr_left (fun c _ => pyLowerChar_idem c)

theorem mem_map_pyLowerChar_fixed {c : Char} {l : List Char}
    (h : c ∈ l.map pyLowerChar) : pyLowerChar c = c := by
  obtain ⟨d, -, rfl⟩ := List.mem_map.mp h
  exact pyLowerChar_idem d

theorem pyLower_eq_self_of_chars {s : String}
    (h : ∀ c ∈ s.data, pyLowerChar c = c) : pyLower s = s := by
  cases s with
  | mk l =>
    simp only [pyLower]
    congr 1
    calc l.map pyLowerChar = l.map id := List.map_congr_left h
    _ = l := List.map_id l

theorem mem_data_pyStrip {c : Char} {s : String}
    (h : c ∈ (pyStrip s).data) : c ∈ s.data := by
  simp only [pyStrip, stripChars] at h
  rw [List.mem_reverse] at h
  have h1 := (List.dropWhile_sublist (l := (s.data.dropWhile Char.isWhitespace).reverse)
    Char.isWhitespace).mem h
  rw [List.mem_reverse] at h1
  exact (List.dropWhile_sublist Char.isWhitespace).mem h1

theorem mem_splitWsAux {c : Char} :
    ∀ (xs acc : List Char) (ys : List Char), ys ∈ splitWsAux xs acc → c ∈ ys →
      c ∈ xs ∨ c ∈ acc
  | [], acc, ys, hys, hc => by
    simp only [splitWsAux] at hys
    split at hys
    · simp at hys
    · simp only [List.mem_singleton] at hys
      subst hys
      exact Or.inr (List.mem_reverse.mp hc)
  | x :: rest, acc, ys, hys, hc => by
    simp only [splitWsAux] at hys
    split at hys
    · split at hys
      · rcases mem_splitWsAux rest [] ys hys hc with h | h
        · exact Or.inl (List.mem_cons_of_mem _ h)
        · simp at h
      · rcases List.mem_cons.mp hys with h | h
        · subst h
          exact Or.inr (List.mem_reverse.mp hc)
        · rcases mem_splitWsAux rest [] ys h hc with h | h
          · exact Or.inl (List.mem_cons_of_mem _ h)
          · simp at h
    · rcases mem_splitWsAux rest (x :: acc) ys hys hc with h | h
      · exact Or.inl (List.mem_cons_of_mem _ h)
      · rcases List.mem_cons.mp h with h | h
        · exact Or.inl (h ▸ List.mem_cons_self _ _)
        · exact Or.inr h

theorem mem_data_pySplit {a s : String} {c : Char}
    (ha : a ∈ pySplit s) (hc : c ∈ a.data) : c ∈ s.data := by
  simp only [pySplit, List.mem_map] at ha
  obtain ⟨ys, hys, rfl⟩ := ha
  rcases mem_splitWsAux s.data [] ys hys hc with h | h
  · exact h
  · simp at h

theorem mem_replaceCharsFuel_empty {c : Char} {pat : List Char} :
    ∀ (fuel : Nat) (xs : List Char), c ∈ replaceCharsFuel pat [] fuel xs → c ∈ xs
  | 0, xs, h => h
  | _ + 1, [], h => by simp [replaceCharsFuel] at h
  | fuel + 1, x :: rest, h => by
    simp only [replaceCharsFuel] at h
    split_ifs at h with hc
    · simp only [List.nil_append] at h
      have hm := mem_replaceCharsFuel_empty fuel _ h
      exact List.mem_cons_of_mem x ((rest.drop_sublist (pat.length - 1)).mem hm)
    · rcases List.mem_cons.mp h with h | h
      · exact h ▸ List.mem_cons_self _ _
      · exact List.mem_cons_of_mem _ (mem_replaceCharsFuel_empty fuel rest h)

theorem mem_data_pyReplace_empty {c : Char} {s pat : String}
    (h : c ∈ (pyReplace s pat "").data) : c ∈ s.data :=
  mem_replaceCharsFuel_empty _ _ h

theorem favLookup_favSet_self (f : Favorites) (uid : String) (l : List String) :
    favLookup (favSet f uid l) uid = some l := by
  induction f with
  | nil => simp [favSet, favLookup]
  | cons kv rest ih =>
    obtain ⟨k, v⟩ := kv
    by_cases h : k = uid
    · simp [favSet, favLookup, h]
    · simp [favSet, favLookup, h, ih]

theorem favSet_favSet (f : Favorites) (uid : String) (a b : List String) :
    favSet (favSet f uid a) uid b = favSet f uid b := by
  induction f with
  | nil => simp [favSet]
  | cons kv rest ih =>
    obtain ⟨k, v⟩ := kv
    by_cases h : k = uid
    · simp [favSet, h]
    · simp [favSet, h, ih]

set_option maxHeartbeats 4000000 in
theorem routeText_invoke_chars (s : SessionState) (genres : List (String × Nat))
    (t : String) (s' : SessionState) (inv : Invocation)
    (h : routeText s genres t = (s', .invoke inv)) :
    ∀ a ∈ invArgs inv, ∀ c ∈ a.data, c ∈ t.data := by
  cases s <;> simp only [routeText] at h <;> split_ifs at h <;>
    simp only [Prod.mk.injEq, RouteAction.invoke.injEq, reduceCtorEq, and_false] at h <;>
    obtain ⟨-, rfl⟩ := h <;> intro a ha c hc <;> simp only [invArgs] at ha <;>
    first
    | exact absurd ha (List.not_mem_nil a)
    | exact mem_data_pyStrip (mem_data_pySplit ha hc)
    | exact mem_data_pyReplace_empty (mem_data_pyStrip (mem_data_pySplit ha hc))
    | exact mem_data_pyReplace_empty
        (mem_data_pyReplace_empty (mem_data_pyStrip (mem_data_pySplit ha hc)))

theorem genreRows_flatten :
    ∀ l : List String, (genreRows l).flatten =
      l.map (fun g => (⟨pyCapitalize g, "genre_" ++ g⟩ : Button))
  | [] => by simp [genreRows]
  | [g] => by simp [genreRows]
  | g1 :: g2 :: rest => by
    simp [genreRows, genreRows_flatten rest]

set_option maxHeartbeats 1000000 in
theorem route_fst_idle (s : SessionState) (genres : List (String × Nat)) (raw : String) :
    (route s genres raw).1 = .idle := by
  unfold route
  cases s <;> simp only [routeText] <;> split_ifs <;> rfl

/- Claim theorems. -/

/-- C1: a session holds at most one pending expectation; any text message
resets the session to idle before the outcome is produced; the menu search
action moves any session to the search state with the search prompt; and a
message whose lowercased, stripped text is nonempty received in the search
state invokes the search handler with that text, split into context.args,
and leaves the state idle. -/
theorem pending_expectation_lifecycle (s : SessionState) (genres : List (String × Nat))
    (cat : Catalog) (store : Favorites) (uid raw : String)
    (h : pyStrip (pyLower raw) ≠ "") :
    pendingCount s ≤ 1 ∧
    (∀ (s₀ : SessionState) (raw₀ : String), (route s₀ genres raw₀).1 = .idle) ∧
    handle_menu_button s genres cat store uid "search" =
      (.search, store, ⟨"🔍 Ketik judul film yang ingin dicari:", none⟩) ∧
    route .search genres raw =
      (.idle, .invoke (.searchI (pySplit (pyStrip (pyLower raw))))) := by
  refine ⟨?_, fun s₀ raw₀ => route_fst_idle s₀ genres raw₀, ?_, ?_⟩
  · cases s <;> simp [pendingCount]
  · rfl
  · unfold route
    simp only [routeText]
    rw [if_pos h]

/-- C1 witness at a concrete input. -/
theorem pending_expectation_lifecycle_witness :
    pyStrip (pyLower "Avengers") ≠ "" ∧
    (pendingCount .favorite ≤ 1 ∧
     (∀ (s₀ : SessionState) (raw₀ : String),
        (route s₀ ([] : List (String × Nat)) raw₀).1 = .idle) ∧
     handle_menu_button .favorite [] ⟨fun _ => [], []⟩ [] "1" "search" =
       (.search, [], ⟨"🔍 Ketik judul film yang ingin dicari:", none⟩) ∧
     route .search [] "Avengers" =
       (.idle, .invoke (.searchI (pySplit (pyStrip (pyLower "Avengers")))))) :=
  ⟨by decide,
   pending_expectation_lifecycle .favorite [] ⟨fun _ => [], []⟩ [] "1" "Avengers" (by decide)⟩

/-- C2: a whitespace-only text message in any awaiting state yields the
corresponding validation message with the error keyboard, invokes no handler,
and resets the state to idle. -/
theorem whitespace_only_resets_to_idle (genres : List (String × Nat)) (raw : String)
    (h : pyStrip (pyLower raw) = "") :
    route .search genres raw =
      (.idle, .send ⟨"❌ Judul film tidak boleh kosong.", some create_error_keyboard⟩) ∧
    route .actor genres raw =
      (.idle, .send ⟨"❌ Nama aktor tidak boleh kosong.", some create_error_keyboard⟩) ∧
    route .favorite genres raw =
      (.idle, .send ⟨"❌ Judul film tidak boleh kosong.", some create_error_keyboard⟩) ∧
    (∀ inv, (route .search genres raw).2 ≠ .invoke inv) ∧
    (∀ inv, (route .actor genres raw).2 ≠ .invoke inv) ∧
    (∀ inv, (route .favorite genres raw).2 ≠ .invoke inv) ∧
    pyContains "❌ Judul film tidak boleh kosong." "tidak boleh kosong" = true ∧
    pyContains "❌ Nama aktor tidak boleh kosong." "tidak boleh kosong" = true := by
  have e1 : route .search genres raw =
      (.idle, .send ⟨"❌ Judul film tidak boleh kosong.", some create_error_keyboard⟩) := by
    unfold route
    simp only [routeText]
    rw [if_neg (by simp [h])]
  have e2 : route .actor genres raw =
      (.idle, .send ⟨"❌ Nama aktor tidak boleh kosong.", some create_error_keyboard⟩) := by
    unfold route
    simp only [routeText]
    rw [if_neg (by simp [h])]
  have e3 : route .favorite genres raw =
      (.idle, .send ⟨"❌ Judul film tidak boleh kosong.", some create_error_keyboard⟩) := by
    unfold route
    simp only [routeText]
    rw [if_neg (by simp [h])]
  refine ⟨e1, e2, e3, ?_, ?_, ?_, by decide, by decide⟩ <;>
    intro inv <;> simp [e1, e2, e3]

/-- C2 witness at a concrete whitespace-only input. -/
theorem whitespace_only_resets_to_idle_witness :
    pyStrip (pyLower "   ") = "" ∧
    (route .search [] "   " =
      (.idle, .send ⟨"❌ Judul film tidak boleh kosong.", some create_error_keyboard⟩) ∧
     route .actor [] "   " =
      (.idle, .send ⟨"❌ Nama aktor tidak boleh kosong.", some create_error_keyboard⟩) ∧
     route .favorite [] "   " =
      (.idle, .send ⟨"❌ Judul film tidak boleh kosong.", some create_error_keyboard⟩) ∧
     (∀ inv, (route .search ([] : List (String × Nat)) "   ").2 ≠ .invoke inv) ∧
     (∀ inv, (route .actor ([] : List (String × Nat)) "   ").2 ≠ .invoke inv) ∧
     (∀ inv, (route .favorite ([] : List (String × Nat)) "   ").2 ≠ .invoke inv) ∧
     pyContains "❌ Judul film tidak boleh kosong." "tidak boleh kosong" = true ∧
     pyContains "❌ Nama aktor tidak boleh kosong." "tidak boleh kosong" = true) :=
  ⟨by decide, whitespace_only_resets_to_idle [] "   " (by decide)⟩

/-- C8: routing a raw text message gives exactly the same result as routing its
lowercased form, and every argument string the router hands to a handler is
itself already lowercase. -/
theorem text_always_lowercased (s : SessionState) (genres : List (String × Nat))
    (raw : String) :
    route s genres raw = route s genres (pyLower raw) ∧
    ∀ (s' : SessionState) (inv : Invocation),
      route s genres raw = (s', .invoke inv) →
        ∀ a ∈ invArgs inv, pyLower a = a := by
  constructor
  · unfold route
    rw [pyLower_idem]
  · intro s' inv h a ha
    have hchars := routeText_invoke_chars s genres (pyLower raw) s' inv h a ha
    apply pyLower_eq_self_of_chars
    intro c hc
    have hmem : c ∈ (pyLower raw).data := hchars c hc
    simp only [pyLower] at hmem
    exact mem_map_pyLowerChar_fixed hmem

/-- C8 witness at a concrete mixed-case input. -/
theorem text_always_lowercased_witness :
    route .search [] "The DARK Knight" = route .search [] (pyLower "The DARK Knight") ∧
    pyLower "dark" = "dark" :=
  ⟨(text_always_lowercased .search [] "The DARK Knight").1,
   (text_always_lowercased .search [] "The DARK Knight").2 .idle
     (.searchI ["the", "dark", "knight"]) (by decide) "dark" (by decide)⟩

theorem ciCount_append (a b : List String) (t : String) :
    ciCount (a ++ b) t = ciCount a t + ciCount b t := by
  simp [ciCount, List.filter_append]

theorem ciCount_eq_zero_not_mem {l : List String} {t : String}
    (h : ciCount l t = 0) : pyLower t ∉ l.map pyLower := by
  intro hmem
  obtain ⟨x, hx, hxe⟩ := List.mem_map.mp hmem
  have hnil : List.filter (fun x => decide (pyLower x = pyLower t)) l = [] :=
    List.length_eq_zero.mp h
  have := List.filter_eq_nil_iff.mp hnil x hx
  simp [hxe] at this

theorem save_favorite_first (store : Favorites) (uid title : String)
    (h : ciCount ((favLookup store uid).getD []) title = 0) :
    save_favorite_movie store uid (some ⟨title⟩) =
      (favSet store uid (((favLookup store uid).getD []) ++ [title]),
       ⟨"✅ \x27" ++ title ++ "\x27 telah ditambahkan ke daftar favorit Anda.",
        some create_error_keyboard⟩) := by
  cases hl : favLookup store uid with
  | none =>
    simp [save_favorite_movie, hl, favLookup_favSet_self, favSet_favSet]
  | some l =>
    have hnm := ciCount_eq_zero_not_mem (by simpa [hl] using h)
    simp [save_favorite_movie, hl, hnm]

theorem save_favorite_already (store : Favorites) (uid title : String) (l : List String)
    (hl : favLookup store uid = some l) (hmem : pyLower title ∈ l.map pyLower) :
    save_favorite_movie store uid (some ⟨title⟩) =
      (store,
       ⟨"❌ \x27" ++ title ++ "\x27 sudah ada di daftar favorit Anda.",
        some create_error_keyboard⟩) := by
  simp [save_favorite_movie, hl, hmem]

/-- C3: starting from a store without a case-insensitive match of the title for
the user, the first save adds the title and reports success, and a second save
of the same title leaves the stored content unchanged (no write happens),
reports that the title is already present, and exactly one stored entry for
the user matches the title case-insensitively. -/
theorem favorites_add_idempotent (store : Favorites) (uid title : String)
    (h : ciCount ((favLookup store uid).getD []) title = 0) :
    (save_favorite_movie store uid (some ⟨title⟩)).2.msg =
      "✅ \x27" ++ title ++ "\x27 telah ditambahkan ke daftar favorit Anda." ∧
    (save_favorite_movie (save_favorite_movie store uid (some ⟨title⟩)).1 uid
        (some ⟨title⟩)).1 =
      (save_favorite_movie store uid (some ⟨title⟩)).1 ∧
    (save_favorite_movie (save_favorite_movie store uid (some ⟨title⟩)).1 uid
        (some ⟨title⟩)).2.msg =
      "❌ \x27" ++ title ++ "\x27 sudah ada di daftar favorit Anda." ∧
    ciCount ((favLookup
        (save_favorite_movie (save_favorite_movie store uid (some ⟨title⟩)).1 uid
          (some ⟨title⟩)).1 uid).getD []) title = 1 := by
  have e1 := save_favorite_first store uid title h
  have hl1 : favLookup (save_favorite_movie store uid (some ⟨title⟩)).1 uid =
      some (((favLookup store uid).getD []) ++ [title]) := by
    rw [e1]
    exact favLookup_favSet_self store uid _
  have hmem : pyLower title ∈ (((favLookup store uid).getD []) ++ [title]).map pyLower := by
    simp
  have e2 := save_favorite_already (save_favorite_movie store uid (some ⟨title⟩)).1 uid
    title _ hl1 hmem
  refine ⟨by rw [e1], by rw [e2], by rw [e2], ?_⟩
  rw [e2]
  simp only [hl1, Option.getD_some, ciCount_append, h]
  simp [ciCount]

/-- C3 witness at a concrete input: the empty store, one user and one title. -/
theorem favorites_add_idempotent_witness :
    ciCount ((favLookup ([] : Favorites) "1").getD []) "Inception" = 0 ∧
    ((save_favorite_movie ([] : Favorites) "1" (some ⟨"Inception"⟩)).2.msg =
      "✅ \x27" ++ "Inception" ++ "\x27 telah ditambahkan ke daftar favorit Anda." ∧
     (save_favorite_movie (save_favorite_movie ([] : Favorites) "1" (some ⟨"Inception"⟩)).1 "1"
        (some ⟨"Inception"⟩)).1 =
      (save_favorite_movie ([] : Favorites) "1" (some ⟨"Inception"⟩)).1 ∧
     (save_favorite_movie (save_favorite_movie ([] : Favorites) "1" (some ⟨"Inception"⟩)).1 "1"
        (some ⟨"Inception"⟩)).2.msg =
      "❌ \x27" ++ "Inception" ++ "\x27 sudah ada di daftar favorit Anda." ∧
     ciCount ((favLookup
        (save_favorite_movie (save_favorite_movie ([] : Favorites) "1" (some ⟨"Inception"⟩)).1 "1"
          (some ⟨"Inception"⟩)).1 "1").getD []) "Inception" = 1) :=
  ⟨by decide, favorites_add_idempotent [] "1" "Inception" (by decide)⟩

/-- C4: the movie-list keyboard shows at most 5 selectable movie rows, exactly
5 when the input has 5 or more, and its final row is always the single
return-to-menu button. -/
theorem movie_keyboard_caps_at_five (movies : List MovieSummary) (cb : String) :
    (movieKeyboardRows movies cb).dropLast.length = min movies.length 5 ∧
    (movieKeyboardRows movies cb).dropLast.length ≤ 5 ∧
    (5 ≤ movies.length → (movieKeyboardRows movies cb).dropLast.length = 5) ∧
    (movieKeyboardRows movies cb).getLast? = some [⟨"🎛️ Menu", "menu_menu"⟩] ∧
    create_movie_keyboard movies cb = Markup.inline (movieKeyboardRows movies cb) := by
  have hlen : (movieKeyboardRows movies cb).dropLast.length = min movies.length 5 := by
    simp only [movieKeyboardRows, List.dropLast_concat, List.length_map, List.length_take]
    omega
  refine ⟨hlen, by rw [hlen]; omega, fun h5 => by rw [hlen]; omega, ?_, rfl⟩
  simp only [movieKeyboardRows, List.getLast?_concat]

/-- C4 witness: an input of 8 summaries yields exactly 5 selectable rows. -/
theorem movie_keyboard_caps_at_five_witness :
    5 ≤ ([⟨1, "A", none⟩, ⟨2, "B", none⟩, ⟨3, "C", none⟩, ⟨4, "D", none⟩,
          ⟨5, "E", none⟩, ⟨6, "F", none⟩, ⟨7, "G", none⟩, ⟨8, "H", none⟩] :
          List MovieSummary).length ∧
    (movieKeyboardRows
        [⟨1, "A", none⟩, ⟨2, "B", none⟩, ⟨3, "C", none⟩, ⟨4, "D", none⟩,
         ⟨5, "E", none⟩, ⟨6, "F", none⟩, ⟨7, "G", none⟩, ⟨8, "H", none⟩]
        "detail").dropLast.length = 5 :=
  ⟨by decide,
   (movie_keyboard_caps_at_five
      [⟨1, "A", none⟩, ⟨2, "B", none⟩, ⟨3, "C", none⟩, ⟨4, "D", none⟩,
       ⟨5, "E", none⟩, ⟨6, "F", none⟩, ⟨7, "G", none⟩, ⟨8, "H", none⟩]
      "detail").2.2.1 (by decide)⟩

/-- C5: in the idle state the bare text genre yields the clarification prompt
listing the available genres with the error keyboard, distinct from the
unrecognized-input fallback that redisplays the main menu, while the text
genre action invokes the genre intent with argument action. -/
theorem genre_missing_argument_distinct (genres : List (String × Nat)) :
    route .idle genres "genre" =
      (.idle, .send ⟨"🏷️ Silakan tentukan genre film:\nContoh: genre action\nGenre yang tersedia: " ++
          String.intercalate ", " (((genres.map Prod.fst).take 10).map pyCapitalize),
        some create_error_keyboard⟩) ∧
    route .idle genres "genre action" = (.idle, .invoke (.genreI ["action"])) ∧
    route .idle genres "xyz" =
      (.idle, .send ⟨"Saya tidak mengerti permintaan Anda. Silakan pilih dari menu di bawah:",
        some create_main_menu.2⟩) ∧
    (∀ m₁ m₂ : String,
      (⟨m₁, some create_error_keyboard⟩ : Reply) ≠ ⟨m₂, some create_main_menu.2⟩) ∧
    (∀ X : String,
      "🏷️ Silakan tentukan genre film:\nContoh: genre action\nGenre yang tersedia: " ++ X ≠
        "Saya tidak mengerti permintaan Anda. Silakan pilih dari menu di bawah:") := by
  refine ⟨?_, ?_, ?_, ?_, ?_⟩
  · rfl
  · rfl
  · rfl
  · intro m₁ m₂ h
    have h2 : (some create_error_keyboard : Option Markup) = some create_main_menu.2 :=
      congrArg Reply.markup h
    exact absurd h2 (by decide)
  · intro X h
    have hlen := congrArg String.length h
    rw [String.length_append] at hlen
    have hA : ("🏷️ Silakan tentukan genre film:\nContoh: genre action\nGenre yang tersedia: " :
        String).length = 74 := by decide
    have hB : ("Saya tidak mengerti permintaan Anda. Silakan pilih dari menu di bawah:" :
        String).length = 70 := by decide
    omega

/-- C5 witness at a one-entry genre table. -/
theorem genre_missing_argument_distinct_witness :
    route .idle [("action", 28)] "genre action" = (.idle, .invoke (.genreI ["action"])) ∧
    (⟨"a", some create_error_keyboard⟩ : Reply) ≠ ⟨"b", some create_main_menu.2⟩ :=
  ⟨(genre_missing_argument_distinct [("action", 28)]).2.1,
   (genre_missing_argument_distinct [("action", 28)]).2.2.2.1 "a" "b"⟩

/-- C6 counterexample: a favorites file that exists but cannot be read or
parsed makes load_favorites raise instead of yielding the empty mapping, so
not every unreadable state is treated as the empty favorites set. -/
theorem load_favorites_raises_cex :
    load_favorites .invalidJson ≠ .ok ([] : Favorites) ∧
    load_favorites .invalidJson = .error .jsonDecodeError ∧
    load_favorites .unreadable ≠ .ok ([] : Favorites) ∧
    load_favorites .unreadable = .error .osError := by
  refine ⟨?_, rfl, ?_, rfl⟩ <;> intro h <;> exact Except.noConfusion h

/-- C6 amended: only a missing favorites file is treated as the empty
favorites mapping (FileNotFoundError is the sole caught exception); a file
that exists but cannot be opened or parsed raises. -/
theorem load_favorites_missing_fail_open (favs : Favorites) :
    load_favorites .missing = .ok ([] : Favorites) ∧
    load_favorites (.valid favs) = .ok favs ∧
    load_favorites .unreadable = .error .osError ∧
    load_favorites .invalidJson = .error .jsonDecodeError :=
  ⟨rfl, rfl, rfl, rfl⟩

/-- C7: when the catalog returns no result for a nonempty search query, the
search handler replies with the no-movies-found message carrying the
return-to-menu keyboard and leaves the favorites store untouched. -/
theorem empty_search_result_frame (cat : Catalog) (store : Favorites) (args : List String)
    (h1 : String.intercalate " " args ≠ "")
    (h2 : cat.searchMovies (String.intercalate " " args) = []) :
    search_movie cat store args =
      (store,
       ⟨"❌ No movies found for \x27" ++ String.intercalate " " args ++ "\x27.",
        some create_error_keyboard⟩) ∧
    create_error_keyboard = Markup.inline [[⟨"🎛️ Menu", "menu_menu"⟩]] := by
  refine ⟨?_, rfl⟩
  simp [search_movie, h1, h2]

/-- C7 witness: an always-empty catalog and a nonempty query. -/
theorem empty_search_result_frame_witness :
    String.intercalate " " ["avengers"] ≠ "" ∧
    Catalog.searchMovies ⟨fun _ => [], []⟩ (String.intercalate " " ["avengers"]) = [] ∧
    search_movie ⟨fun _ => [], []⟩ [("2", ["Up"])] ["avengers"] =
      ([("2", ["Up"])],
       ⟨"❌ No movies found for \x27" ++ String.intercalate " " ["avengers"] ++ "\x27.",
        some create_error_keyboard⟩) :=
  ⟨by decide, rfl,
   (empty_search_result_frame ⟨fun _ => [], []⟩ [("2", ["Up"])] ["avengers"]
      (by decide) rfl).1⟩

/-- C9: the genre submenu keyboard and the genre clarification prompt expose
exactly the first 10 genres of the loaded genre table, hence at most 10. -/
theorem genre_lists_capped_at_ten (state : SessionState) (genres : List (String × Nat))
    (cat : Catalog) (store : Favorites) (uid : String) :
    handle_menu_button state genres cat store uid "genres" =
      (state, store,
       ⟨"🏷️ Pilih genre:",
        some (Markup.inline (genreRows ((genres.map Prod.fst).take 10) ++
          [[⟨"⬅️ Kembali", "menu_main"⟩]]))⟩) ∧
    (genreRows ((genres.map Prod.fst).take 10)).flatten =
      ((genres.map Prod.fst).take 10).map (fun g => ⟨pyCapitalize g, "genre_" ++ g⟩) ∧
    (genreRows ((genres.map Prod.fst).take 10)).flatten.length ≤ 10 ∧
    route .idle genres "genre" =
      (.idle, .send ⟨"🏷️ Silakan tentukan genre film:\nContoh: genre action\nGenre yang tersedia: " ++
          String.intercalate ", " (((genres.map Prod.fst).take 10).map pyCapitalize),
        some create_error_keyboard⟩) ∧
    ((genres.map Prod.fst).take 10).length ≤ 10 := by
  refine ⟨?_, genreRows_flatten _, ?_, ?_, ?_⟩
  · rfl
  · rw [genreRows_flatten]
    simp only [List.length_map, List.length_take]
    omega
  · rfl
  · simp only [List.length_take, List.length_map]
    omega

/-- C10: a user id absent from the favorites store and a user id mapped to an
empty list are treated the same by both the command path and the menu path:
the no-favorites message, with the store unchanged. -/
theorem empty_favorites_like_missing (state : SessionState) (genres : List (String × Nat))
    (cat : Catalog) (store : Favorites) (uid : String)
    (h : favLookup store uid = none ∨ favLookup store uid = some []) :
    view_favorites store uid =
      (store, ⟨"❌ Anda belum memiliki film favorit.", some create_error_keyboard⟩) ∧
    handle_menu_button state genres cat store uid "favorites" =
      (state, store, ⟨"❌ Anda belum memiliki film favorit.", some create_error_keyboard⟩) := by
  rcases h with h | h <;> constructor <;> simp [view_favorites, handle_menu_button, h]

/-- C10 witness: a user whose stored favorites list is empty. -/
theorem empty_favorites_like_missing_witness :
    (favLookup [("7", ([] : List String))] "7" = none ∨
     favLookup [("7", ([] : List String))] "7" = some []) ∧
    (view_favorites [("7", [])] "7" =
      ([("7", [])], ⟨"❌ Anda belum memiliki film favorit.", some create_error_keyboard⟩) ∧
     handle_menu_button .idle [] ⟨fun _ => [], []⟩ [("7", [])] "7" "favorites" =
      (.idle, [("7", [])], ⟨"❌ Anda belum memiliki film favorit.", some create_error_keyboard⟩)) :=
  ⟨by decide,
   empty_favorites_like_missing .idle [] ⟨fun _ => [], []⟩ [("7", [])] "7" (by decide)⟩

end MovieBot
